import Mathlib

/-!
Verification of the DU-status dashboard (`src/app.py`) against its
specification. The script is a sequential orchestration of HTTP calls;
we embed it shallowly: every network interaction is abstracted by an
"environment" function giving the outcome of each request, and the
Python functions become total Lean functions over those environments.

Python runtime values that matter to the program (values stored in the
`results` dictionary, parsed JSON bodies, the strings produced by error
handlers) are modelled by the `Json` type below. JSON numbers are
modelled as integers: no claim depends on fractional numeric values.
-/

set_option autoImplicit false

/-- Model of a parsed JSON value / Python value as produced by
`response.json()`. Error strings stored by the code land in `Json.str`,
exactly as Python stores them in the same dictionary as parsed bodies. -/
inductive Json where
  | null : Json
  | bool (b : Bool) : Json
  | num (n : Int) : Json
  | str (s : String) : Json
  | arr (elems : List Json) : Json
  | obj (fields : List (String × Json)) : Json

/-- `isinstance(x, dict)` on a modelled Python value. -/
def Json.isObj : Json → Bool
  | .obj _ => true
  | _ => false

/-- Keys of an association list modelling a Python dict, in order. -/
def keysOf (l : List (String × Json)) : List String :=
  l.map Prod.fst

/-- Python dict assignment `d[k] = v` on the association-list model:
if the key is present its value is replaced in place (insertion
position kept), otherwise the pair is appended at the end. -/
def dictInsert : List (String × Json) → String → Json → List (String × Json)
  | [], k, v => [(k, v)]
  | p :: rest, k, v =>
      if p.1 = k then (k, v) :: rest else p :: dictInsert rest k v

/-- Python dict lookup `d.get(k)` on the association-list model. -/
def lookupVal (l : List (String × Json)) (k : String) : Option Json :=
  (l.find? (fun p => p.1 == k)).map Prod.snd

/-- Outcome of one `requests.get` call in `fetch_du_status`, as the
code's `try` block distinguishes them: a 2xx response whose body parsed
as JSON, a `requests.exceptions.RequestException` (connection error,
timeout, non-2xx raised by `raise_for_status`), or any other exception
raised while processing the response. -/
inductive HttpResult where
  | ok (body : Json) : HttpResult
  | requestException (msg : String) : HttpResult
  | otherException (msg : String) : HttpResult

/-- The value `fetch_du_status` stores in `results[du_id]` for one
request outcome (src/app.py lines 84-99). -/
def statusValue : HttpResult → Json
  | .ok body => body
  | .requestException e => .str ("Network Error: " ++ e)
  | .otherException e => .str ("Processing Error: " ++ e)

/-- The loop of `fetch_du_status` (src/app.py lines 76-99). `i` counts
the HTTP requests issued so far; the outcome of the `i`-th request is
`env i`. Returns the results dict together with the total number of
HTTP requests issued. -/
def fetch_du_status_go (env : Nat → HttpResult) :
    Nat → List String → List (String × Json) → List (String × Json) × Nat
  | i, [], results => (results, i)
  | i, du_id :: rest, results =>
      fetch_du_status_go env (i + 1) rest
        (dictInsert results du_id (statusValue (env i)))

/-- `fetch_du_status(du_ids)` (src/app.py lines 74-100): one sequential
HTTP request per identifier, each outcome recorded under its identifier
in an insertion-ordered dict. -/
def fetch_du_status (env : Nat → HttpResult) (du_ids : List String) :
    List (String × Json) × Nat :=
  fetch_du_status_go env 0 du_ids []

/-- The distinct elements of a list in first-occurrence order
(specification-side description of Python dict-key order). -/
def firstOccurrences : List String → List String
  | [] => []
  | x :: xs => x :: firstOccurrences (xs.filter (fun y => y != x))
termination_by l => l.length
decreasing_by
  simp only [List.length_cons]
  exact Nat.lt_succ_of_le (List.length_filter_le _ _)

/-- Index of the last occurrence of `id` in the list, if any
(specification-side: the loop iteration whose write wins). -/
def lastCallIndex : List String → String → Option Nat
  | [], _ => none
  | x :: xs, id =>
      match lastCallIndex xs id with
      | some j => some (j + 1)
      | none => if x = id then some 0 else none

theorem keysOf_dictInsert (l : List (String × Json)) (k : String) (v : Json) :
    keysOf (dictInsert l k v) =
      if k ∈ keysOf l then keysOf l else keysOf l ++ [k] := by
  induction l with
  | nil => simp [dictInsert, keysOf]
  | cons p rest ih =>
      by_cases h : p.1 = k
      · simp [dictInsert, keysOf, h]
      · have hne : ¬ k = p.1 := fun hk => h hk.symm
        simp only [dictInsert, if_neg h, keysOf, List.map_cons, List.mem_cons]
        rw [keysOf] at ih
        by_cases hm : k ∈ keysOf rest
        · rw [keysOf] at hm
          simp [ih, hm, hne, keysOf]
        · rw [keysOf] at hm
          simp [ih, hm, hne, keysOf]

theorem lookupVal_dictInsert_self (l : List (String × Json)) (k : String) (v : Json) :
    lookupVal (dictInsert l k v) k = some v := by
  induction l with
  | nil => simp [dictInsert, lookupVal]
  | cons p rest ih =>
      by_cases h : p.1 = k
      · simp [dictInsert, lookupVal, h]
      · have hb : (p.1 == k) = false := by
          exact beq_eq_false_iff_ne.mpr h
        simp only [dictInsert, if_neg h, lookupVal, List.find?_cons, hb]
        exact ih

theorem lookupVal_dictInsert_ne (l : List (String × Json)) (k k' : String)
    (v : Json) (hne : k' ≠ k) :
    lookupVal (dictInsert l k v) k' = lookupVal l k' := by
  induction l with
  | nil =>
      have hb : (k == k') = false := beq_eq_false_iff_ne.mpr (fun h => hne h.symm)
      simp [dictInsert, lookupVal, hb]
  | cons p rest ih =>
      by_cases h : p.1 = k
      · have hb : (k == k') = false := beq_eq_false_iff_ne.mpr (fun hkk => hne hkk.symm)
        have hb2 : (p.1 == k') = false := by
          subst h
          exact hb
        simp [dictInsert, lookupVal, h, hb, hb2]
      · simp only [dictInsert, if_neg h, lookupVal, List.find?_cons]
        cases hpk : (p.1 == k') with
        | true => rfl
        | false => exact ih

theorem lookupVal_eq_none_of_not_mem (l : List (String × Json)) (k : String)
    (h : k ∉ keysOf l) : lookupVal l k = none := by
  induction l with
  | nil => rfl
  | cons p rest ih =>
      simp only [keysOf, List.map_cons, List.mem_cons, not_or] at h
      have hb : (p.1 == k) = false := beq_eq_false_iff_ne.mpr (fun hpk => h.1 hpk.symm)
      simp only [lookupVal, List.find?_cons, hb]
      exact ih (by simpa [keysOf] using h.2)

theorem mem_firstOccurrences (l : List String) (y : String) :
    y ∈ firstOccurrences l ↔ y ∈ l := by
  induction l using firstOccurrences.induct with
  | case1 => simp [firstOccurrences]
  | case2 x xs ih =>
      rw [firstOccurrences]
      simp only [List.mem_cons, ih, List.mem_filter, bne_iff_ne, ne_eq]
      by_cases hyx : y = x
      · simp [hyx]
      · simp [hyx]

theorem nodup_firstOccurrences (l : List String) :
    (firstOccurrences l).Nodup := by
  induction l using firstOccurrences.induct with
  | case1 => simp [firstOccurrences]
  | case2 x xs ih =>
      rw [firstOccurrences]
      refine List.nodup_cons.mpr ⟨?_, ih⟩
      intro hx
      rw [mem_firstOccurrences] at hx
      have := (List.mem_filter.mp hx).2
      simp at this

theorem fetch_du_status_go_keys (env : Nat → HttpResult) :
    ∀ (rest : List String) (i : Nat) (acc : List (String × Json)),
      keysOf (fetch_du_status_go env i rest acc).1 =
        keysOf acc ++
          firstOccurrences (rest.filter (fun y => !(decide (y ∈ keysOf acc)))) := by
  intro rest
  induction rest with
  | nil => intro i acc; simp [fetch_du_status_go, firstOccurrences]
  | cons x xs ih =>
      intro i acc
      rw [fetch_du_status_go, ih]
      rw [keysOf_dictInsert]
      by_cases hx : x ∈ keysOf acc
      · rw [if_pos hx]
        have hpred : (!(decide (x ∈ keysOf acc))) = false := by simp [hx]
        rw [List.filter_cons_of_neg (by simp [hx])]
      · rw [if_neg hx]
        rw [List.filter_cons_of_pos (by simp [hx])]
        rw [firstOccurrences]
        rw [List.filter_filter]
        have hcongr :
            xs.filter (fun y => !(decide (y ∈ keysOf acc ++ [x]))) =
              xs.filter (fun a => (!(decide (a ∈ keysOf acc))) && (a != x)) := by
          apply List.filter_congr
          intro a _
          by_cases hax : a = x
          · simp [hax]
          · simp [hax, List.mem_append]
        rw [hcongr]
        have hcomm :
            xs.filter (fun a => (!(decide (a ∈ keysOf acc))) && (a != x)) =
              xs.filter (fun a => (a != x) && (!(decide (a ∈ keysOf acc)))) := by
          apply List.filter_congr
          intro a _
          exact Bool.and_comm _ _
        rw [hcomm]
        simp

theorem fetch_du_status_go_lookup (env : Nat → HttpResult) (id : String) :
    ∀ (rest : List String) (i : Nat) (acc : List (String × Json)),
      lookupVal (fetch_du_status_go env i rest acc).1 id =
        match lastCallIndex rest id with
        | some j => some (statusValue (env (i + j)))
        | none => lookupVal acc id := by
  intro rest
  induction rest with
  | nil => intro i acc; simp [fetch_du_status_go, lastCallIndex]
  | cons x xs ih =>
      intro i acc
      rw [fetch_du_status_go, ih]
      rw [lastCallIndex]
      cases hlast : lastCallIndex xs id with
      | some j =>
          simp only []
          have : i + 1 + j = i + (j + 1) := by omega
          rw [this]
      | none =>
          simp only []
          by_cases hx : x = id
          · rw [if_pos hx, hx]
            rw [lookupVal_dictInsert_self]
            simp
          · rw [if_neg hx]
            rw [lookupVal_dictInsert_ne _ _ _ _ (fun h => hx h.symm)]

/-- C1 helper: the keys of the result dict of `fetch_du_status` are the
distinct input identifiers in first-occurrence order, whatever the
per-request outcomes are. -/
theorem fetch_du_status_keys (env : Nat → HttpResult) (ids : List String) :
    keysOf (fetch_du_status env ids).1 = firstOccurrences ids := by
  rw [fetch_du_status, fetch_du_status_go_keys]
  simp only [keysOf, List.map_nil, List.nil_append]
  have : ids.filter (fun y => !(decide (y ∈ ([] : List String)))) = ids := by
    have h : ids.filter (fun y => !(decide (y ∈ ([] : List String)))) =
        ids.filter (fun _ => true) := by
      apply List.filter_congr
      intro a _
      simp
    rw [h, List.filter_true]
  rw [this]

/-- C1: for every list of DU identifiers and every assignment of
outcomes to the sequential HTTP requests, `fetch_du_status` returns a
mapping with exactly one entry per distinct input identifier (the key
list is duplicate-free and has the same members as the input), keyed in
first-occurrence input order, where the value stored for an identifier
is determined by the outcome of the last request issued for that
identifier (last-write-wins). Since this holds for every outcome
assignment `env` — including ones where any subset of the requests fail
— a network or processing failure on one identifier never omits or
prevents the entries of the other identifiers. -/
theorem fetch_du_status_complete (env : Nat → HttpResult) (ids : List String) :
    keysOf (fetch_du_status env ids).1 = firstOccurrences ids ∧
    (keysOf (fetch_du_status env ids).1).Nodup ∧
    (∀ id, id ∈ keysOf (fetch_du_status env ids).1 ↔ id ∈ ids) ∧
    (∀ id, lookupVal (fetch_du_status env ids).1 id =
      (lastCallIndex ids id).map (fun j => statusValue (env j))) := by
  refine ⟨fetch_du_status_keys env ids, ?_, ?_, ?_⟩
  · rw [fetch_du_status_keys]
    exact nodup_firstOccurrences ids
  · intro id
    rw [fetch_du_status_keys]
    exact mem_firstOccurrences ids id
  · intro id
    rw [fetch_du_status, fetch_du_status_go_lookup]
    cases hlast : lastCallIndex ids id with
    | some j => simp
    | none => simp [lookupVal]

/-- C10: calling `fetch_du_status` with an empty identifier list
returns an empty mapping and issues zero HTTP requests. -/
theorem fetch_du_status_empty (env : Nat → HttpResult) :
    fetch_du_status env [] = ([], 0) := rfl

/-- Outcome of the single `requests.get` call in `fetch_du_name`, as
its `try` block distinguishes them (src/app.py lines 62-72). -/
inductive NameResult where
  | ok (body : Json) : NameResult
  | requestException (msg : String) : NameResult
  | otherException (msg : String) : NameResult

/-- Python `dict.get(key)` on parsed-JSON object fields. -/
def jsonGet (fields : List (String × Json)) (key : String) : Option Json :=
  (fields.find? (fun p => p.1 == key)).map Prod.snd

/-- `fetch_du_name(du_id)` (src/app.py lines 62-72). On a parsed
object body, `response.json().get("name", "Unknown DU Name")`; when
the parsed body is not a dict, the `.get` attribute access raises and
the generic handler returns `"Error fetching name"`; a
`RequestException` yields `"Unknown DU Name"`, any other exception
yields `"Error fetching name"`. The return value is a Python value
(the `name` field may be any JSON value), hence `Json`. -/
def fetch_du_name (env : String → NameResult) (du_id : String) : Json :=
  match env du_id with
  | .ok (Json.obj fields) => (jsonGet fields "name").getD (Json.str "Unknown DU Name")
  | .ok _ => Json.str "Error fetching name"
  | .requestException _ => Json.str "Unknown DU Name"
  | .otherException _ => Json.str "Error fetching name"

/-- A name lookup counts as failed when the request raised (non-2xx,
connection error, timeout, or any processing exception) or the
response body was not a JSON object. -/
def nameFailure : NameResult → Prop
  | .ok (Json.obj _) => False
  | _ => True

/-- C5: `fetch_du_name` is total (it is a Lean function: no exception
escapes to the caller), and on every failed lookup — request exception,
processing exception, or a body that is not a JSON object — it returns
exactly one of the sentinel strings `"Unknown DU Name"` or
`"Error fetching name"`. -/
theorem fetch_du_name_failure_sentinels (env : String → NameResult)
    (du_id : String) (h : nameFailure (env du_id)) :
    fetch_du_name env du_id = Json.str "Unknown DU Name" ∨
      fetch_du_name env du_id = Json.str "Error fetching name" := by
  rw [fetch_du_name]
  cases henv : env du_id with
  | ok body =>
      cases body with
      | obj fields =>
          rw [henv] at h
          exact absurd h (by simp [nameFailure])
      | null => right; rfl
      | bool b => right; rfl
      | num n => right; rfl
      | str s => right; rfl
      | arr elems => right; rfl
  | requestException m => left; rfl
  | otherException m => right; rfl

/-- Concrete name-resolver environment: every request times out. -/
def nameEnvTimeout : String → NameResult :=
  fun _ => NameResult.requestException "ConnectTimeout"

/-- C5 witness: at the concrete environment where the request for DU
`"1639"` raises a timeout, the hypothesis holds and `fetch_du_name`
returns one of the two sentinel strings. -/
theorem fetch_du_name_failure_sentinels_witness :
    nameFailure (nameEnvTimeout "1639") ∧
      (fetch_du_name nameEnvTimeout "1639" = Json.str "Unknown DU Name" ∨
        fetch_du_name nameEnvTimeout "1639" = Json.str "Error fetching name") :=
  ⟨trivial, fetch_du_name_failure_sentinels nameEnvTimeout "1639" trivial⟩

/-- One iteration body of the rendering loop (src/app.py lines
144-152): the name is fetched for every identifier, then the entry
`collected_data[du_id] = {"name": du_name, "status": status}` is added
only when `isinstance(status, dict)`. -/
def build_collected_go (nameEnv : String → NameResult) :
    List (String × Json) → List (String × Json) → List (String × Json)
  | acc, [] => acc
  | acc, (du_id, status) :: rest =>
      build_collected_go nameEnv
        (if status.isObj then
          dictInsert acc du_id
            (Json.obj [("name", fetch_du_name nameEnv du_id), ("status", status)])
        else acc) rest

/-- The `collected_data` dict built while rendering the fetched
statuses (src/app.py lines 142-152). -/
def build_collected (nameEnv : String → NameResult)
    (statuses : List (String × Json)) : List (String × Json) :=
  build_collected_go nameEnv [] statuses

theorem keysOf_build_collected_go_subset (nameEnv : String → NameResult) :
    ∀ (statuses acc : List (String × Json)) (k : String),
      k ∈ keysOf (build_collected_go nameEnv acc statuses) →
        k ∈ keysOf acc ∨ k ∈ keysOf statuses := by
  intro statuses
  induction statuses with
  | nil => intro acc k hk; exact Or.inl hk
  | cons p rest ih =>
      intro acc k hk
      rw [build_collected_go] at hk
      rcases ih _ k hk with hacc | hrest
      · by_cases hobj : p.2.isObj
        · rw [if_pos hobj, keysOf_dictInsert] at hacc
          by_cases hmem : p.1 ∈ keysOf acc
          · rw [if_pos hmem] at hacc
            exact Or.inl hacc
          · rw [if_neg hmem] at hacc
            rcases List.mem_append.mp hacc with h1 | h2
            · exact Or.inl h1
            · right
              simp only [List.mem_singleton] at h2
              simp [keysOf, h2]
        · rw [if_neg hobj] at hacc
          exact Or.inl hacc
      · right
        simp only [keysOf, List.map_cons, List.mem_cons]
        exact Or.inr hrest

theorem build_collected_go_lookup (nameEnv : String → NameResult) :
    ∀ (statuses acc : List (String × Json)) (id : String),
      (keysOf statuses).Nodup →
      (∀ k, k ∈ keysOf statuses → k ∉ keysOf acc) →
      lookupVal (build_collected_go nameEnv acc statuses) id =
        match lookupVal statuses id with
        | some st =>
            if st.isObj then
              some (Json.obj [("name", fetch_du_name nameEnv id), ("status", st)])
            else lookupVal acc id
        | none => lookupVal acc id := by
  intro statuses
  induction statuses with
  | nil =>
      intro acc id _ _
      simp [build_collected_go, lookupVal]
  | cons p rest ih =>
      intro acc id hnodup hdisj
      have hknodup : p.1 ∉ keysOf rest ∧ (keysOf rest).Nodup := by
        simpa [keysOf] using hnodup
      have hpacc : p.1 ∉ keysOf acc := by
        apply hdisj
        simp [keysOf]
      have hdisj2 : ∀ k, k ∈ keysOf rest →
          k ∉ keysOf (if p.2.isObj then
            dictInsert acc p.1
              (Json.obj [("name", fetch_du_name nameEnv p.1), ("status", p.2)])
          else acc) := by
        intro k hk
        have hkp : k ≠ p.1 := fun hkp => hknodup.1 (hkp ▸ hk)
        have hkacc : k ∉ keysOf acc := by
          apply hdisj
          simp only [keysOf, List.map_cons, List.mem_cons]
          exact Or.inr hk
        by_cases hobj : p.2.isObj
        · rw [if_pos hobj, keysOf_dictInsert]
          by_cases hmem : p.1 ∈ keysOf acc
          · rw [if_pos hmem]; exact hkacc
          · rw [if_neg hmem]
            intro hcon
            rcases List.mem_append.mp hcon with h1 | h2
            · exact hkacc h1
            · simp only [List.mem_singleton] at h2
              exact hkp h2
        · rw [if_neg hobj]; exact hkacc
      have hrec := ih _ id hknodup.2 hdisj2
      rw [build_collected_go, hrec]
      by_cases hid : p.1 = id
      · subst hid
        have hrest_none : lookupVal rest p.1 = none :=
          lookupVal_eq_none_of_not_mem _ _ (by
            intro hmem
            exact hknodup.1 hmem)
        have hcons : lookupVal ((p.1, p.2) :: rest) p.1 = some p.2 := by
          simp [lookupVal, List.find?_cons]
        rw [hrest_none, hcons]
        by_cases hobj : p.2.isObj
        · simpa [hobj] using lookupVal_dictInsert_self acc p.1
            (Json.obj [("name", fetch_du_name nameEnv p.1), ("status", p.2)])
        · simp [hobj]
      · have hb : (p.1 == id) = false := beq_eq_false_iff_ne.mpr hid
        have hcons : lookupVal ((p.1, p.2) :: rest) id = lookupVal rest id := by
          simp [lookupVal, List.find?_cons, hb]
        rw [hcons]
        have hacc_eq : lookupVal (if p.2.isObj then
            dictInsert acc p.1
              (Json.obj [("name", fetch_du_name nameEnv p.1), ("status", p.2)])
          else acc) id = lookupVal acc id := by
          by_cases hobj : p.2.isObj
          · rw [if_pos hobj]
            exact lookupVal_dictInsert_ne acc p.1 id _ (fun h => hid h.symm)
          · rw [if_neg hobj]
        cases lookupVal rest id with
        | some st =>
            by_cases hobj : st.isObj
            · simp [hobj]
            · simp [hobj, hacc_eq]
        | none => simpa using hacc_eq

/-- C2: for every identifier, the Collected Data dict handed to the
summarizer has an entry for that identifier exactly when the fetched
status value for it is a JSON object (`isinstance(status, dict)`); the
entry then pairs the fetched name with that status object. The
hypothesis that the status dict has duplicate-free keys always holds
for the output of `fetch_du_status` (see `fetch_du_status_complete`). -/
theorem collected_data_entry_iff (nameEnv : String → NameResult)
    (statuses : List (String × Json)) (h : (keysOf statuses).Nodup)
    (id : String) :
    lookupVal (build_collected nameEnv statuses) id =
      match lookupVal statuses id with
      | some st =>
          if st.isObj then
            some (Json.obj [("name", fetch_du_name nameEnv id), ("status", st)])
          else none
      | none => none := by
  rw [build_collected, build_collected_go_lookup nameEnv statuses [] id h
    (by intro k _; simp [keysOf])]
  cases lookupVal statuses id with
  | some st =>
      by_cases hobj : st.isObj
      · simp [hobj]
      · simp [hobj, lookupVal]
  | none => simp [lookupVal]

/-- Concrete name-resolver environment for the C2 witness: the name
endpoint answers every request with the body from spec Scenario 4. -/
def nameEnvRouterA : String → NameResult :=
  fun _ => NameResult.ok (Json.obj [("name", Json.str "Router-A")])

/-- Concrete fetched-status dict for the C2 witness (spec Scenario 4):
the status endpoint returned the object with field BIFLOW for "1639". -/
def statusesScenario4 : List (String × Json) :=
  [("1639", Json.obj [("BIFLOW", Json.str "active")])]

/-- C2 witness: on Scenario 4 data the key-uniqueness hypothesis holds
and Collected Data maps "1639" to name Router-A with the status
object. -/
theorem collected_data_entry_iff_witness :
    (keysOf statusesScenario4).Nodup ∧
      lookupVal (build_collected nameEnvRouterA statusesScenario4) "1639" =
        some (Json.obj [("name", Json.str "Router-A"),
          ("status", Json.obj [("BIFLOW", Json.str "active")])]) := by
  refine ⟨by decide, ?_⟩
  rw [collected_data_entry_iff nameEnvRouterA statusesScenario4 (by decide) "1639"]
  rfl

/-- The ASCII whitespace characters stripped by Python `str.strip()`
(space, tab, newline, carriage return, vertical tab, form feed; the
identifiers in this application are ASCII, so the Unicode space
characters Python also strips are not modelled). -/
def pyWhitespace (c : Char) : Bool :=
  c = ' ' || c = '\t' || c = '\n' || c = '\r' ||
    c = Char.ofNat 11 || c = Char.ofNat 12

/-- Python `s.strip()`: remove leading and trailing whitespace. -/
def py_strip (s : String) : String :=
  String.mk (((s.data.dropWhile pyWhitespace).reverse.dropWhile pyWhitespace).reverse)

/-- Split a character list at every comma, keeping empty segments:
the semantics of Python `str.split(",")` (one-character separator). -/
def splitCommasChars : List Char → List (List Char)
  | [] => [[]]
  | c :: cs =>
      if c = ',' then [] :: splitCommasChars cs
      else
        match splitCommasChars cs with
        | [] => [[c]]
        | t :: ts => (c :: t) :: ts

/-- Python `du_input.split(",")`. -/
def py_split_commas (s : String) : List String :=
  (splitCommasChars s.data).map String.mk

/-- The list-comprehension on src/app.py line 135:
`[du.strip() for du in du_input.split(",") if du.strip()]`.
The truthiness test on a Python string is non-emptiness, applied here
to the stripped token. -/
def parse_du_ids (du_input : String) : List String :=
  ((py_split_commas du_input).filter (fun du => py_strip du != "")).map py_strip

/-- C3: the identifier list passed to the status fetcher equals the
result of splitting the input on commas, trimming whitespace from each
token and dropping the empty tokens, in the original order with
duplicates retained; in particular `"1639, 2092"` parses to
`["1639", "2092"]`. -/
theorem parse_du_ids_spec (du_input : String) :
    parse_du_ids du_input =
      (((py_split_commas du_input).map py_strip).filter (fun t => t != "")) ∧
    parse_du_ids "1639, 2092" = ["1639", "2092"] := by
  constructor
  · rw [parse_du_ids]
    induction py_split_commas du_input with
    | nil => rfl
    | cons d rest ih =>
        by_cases hd : py_strip d != ""
        · simp only [List.filter_cons, List.map_cons, hd, if_true, List.map_cons, ih]
        · have hd' : (py_strip d != "") = false := by
            simpa using hd
          simp [List.filter_cons, List.map_cons, hd', ih]
  · decide

/-- Outcome of the single chat-completion call in `analyze_with_gpt`
(src/app.py lines 102-126): a successful response (whose extracted
message content is the string), an `openai.error.OpenAIError`, or any
other exception while building or reading the response. -/
inductive LlmOutcome where
  | ok (content : String) : LlmOutcome
  | openAIError (msg : String) : LlmOutcome
  | otherException (msg : String) : LlmOutcome

/-- `analyze_with_gpt(data)` (src/app.py lines 102-126): returns the
model's text on success, `"Error analyzing data with GPT"` on a
provider-reported error, `"Error processing analysis"` on any other
exception. The prompt embeds `data`; the claims under verification do
not depend on the prompt text, only on the call discipline. -/
def analyze_with_gpt (llm : LlmOutcome) (data : List (String × Json)) : String :=
  match llm with
  | .ok content => content
  | .openAIError _ => "Error analyzing data with GPT"
  | .otherException _ => "Error processing analysis"

/-- Observable outcome of one button-click run of `main`
(src/app.py lines 129-160): whether the validation error was shown,
the parsed identifier list, the fetched statuses, how many HTTP
requests the status fetcher issued, how many name lookups were made,
the Collected Data dict, and the analysis text if `analyze_with_gpt`
was invoked (`none` = not invoked). -/
structure RunResult where
  validationError : Bool
  du_ids : List String
  statuses : List (String × Json)
  statusRequestCount : Nat
  nameRequestCount : Nat
  collected : List (String × Json)
  analysis : Option String

/-- The body of `if st.button("Check DU Status")` (src/app.py lines
129-160): validate the input, parse it, fetch the statuses, render
each row (fetching one name per row and collecting the dict-valued
statuses), and invoke the summarizer only when `collected_data` is
truthy. -/
def run_click (statusEnv : Nat → HttpResult) (nameEnv : String → NameResult)
    (llm : LlmOutcome) (du_input : String) : RunResult :=
  if py_strip du_input = "" then
    { validationError := true
      du_ids := []
      statuses := []
      statusRequestCount := 0
      nameRequestCount := 0
      collected := []
      analysis := none }
  else
    let du_ids := parse_du_ids du_input
    let fetched := fetch_du_status statusEnv du_ids
    let collected := build_collected nameEnv fetched.1
    { validationError := false
      du_ids := du_ids
      statuses := fetched.1
      statusRequestCount := fetched.2
      nameRequestCount := fetched.1.length
      collected := collected
      analysis := if collected.isEmpty then none
        else some (analyze_with_gpt llm collected) }

/-- C4: in every button-click run, the LLM summarizer is invoked
exactly when the Collected Data dict built during rendering is
non-empty; it is never invoked with an empty dict. -/
theorem analysis_iff_collected_nonempty (statusEnv : Nat → HttpResult)
    (nameEnv : String → NameResult) (llm : LlmOutcome) (du_input : String) :
    ((run_click statusEnv nameEnv llm du_input).analysis.isSome = true ↔
      (run_click statusEnv nameEnv llm du_input).collected ≠ []) := by
  rw [run_click]
  by_cases hval : py_strip du_input = ""
  · simp [hval]
  · simp only [if_neg hval]
    by_cases hc : (build_collected nameEnv
        (fetch_du_status statusEnv (parse_du_ids du_input)).1).isEmpty
    · simp [hc, List.isEmpty_iff.mp hc]
    · simp only [hc, if_false]
      constructor
      · intro _
        intro hnil
        rw [hnil] at hc
        exact hc rfl
      · intro _
        simp

/-- C7: when the input is empty or consists only of whitespace, a
button click shows the validation error and performs no work: no
status request, no name lookup, no summarizer call, no parsed
identifiers, no results. -/
theorem empty_input_no_network (statusEnv : Nat → HttpResult)
    (nameEnv : String → NameResult) (llm : LlmOutcome) (du_input : String)
    (h : du_input.data.all pyWhitespace = true) :
    (run_click statusEnv nameEnv llm du_input).validationError = true ∧
    (run_click statusEnv nameEnv llm du_input).statusRequestCount = 0 ∧
    (run_click statusEnv nameEnv llm du_input).nameRequestCount = 0 ∧
    (run_click statusEnv nameEnv llm du_input).analysis = none ∧
    (run_click statusEnv nameEnv llm du_input).du_ids = [] ∧
    (run_click statusEnv nameEnv llm du_input).statuses = [] ∧
    (run_click statusEnv nameEnv llm du_input).collected = [] := by
  have hstrip : py_strip du_input = "" := by
    rw [py_strip]
    have hdrop : du_input.data.dropWhile pyWhitespace = [] := by
      rw [List.dropWhile_eq_nil_iff]
      intro x hx
      exact List.all_eq_true.mp h x hx
    rw [hdrop]
    rfl
  rw [run_click, if_pos hstrip]
  exact ⟨rfl, rfl, rfl, rfl, rfl, rfl, rfl⟩

/-- Arbitrary concrete environments for the C7 witness; the theorem
holds whatever the network would have answered, since nothing is
called. -/
def statusEnvNone : Nat → HttpResult :=
  fun _ => HttpResult.requestException "unreachable"

/-- C7 witness: the whitespace-only input `"   "` satisfies the
hypothesis and the click shows the validation error and performs no
status request, name lookup or summarizer call. -/
theorem empty_input_no_network_witness :
    ("   ".data.all pyWhitespace = true) ∧
      ((run_click statusEnvNone nameEnvTimeout (LlmOutcome.ok "unused") "   ").validationError = true ∧
       (run_click statusEnvNone nameEnvTimeout (LlmOutcome.ok "unused") "   ").statusRequestCount = 0 ∧
       (run_click statusEnvNone nameEnvTimeout (LlmOutcome.ok "unused") "   ").nameRequestCount = 0 ∧
       (run_click statusEnvNone nameEnvTimeout (LlmOutcome.ok "unused") "   ").analysis = none ∧
       (run_click statusEnvNone nameEnvTimeout (LlmOutcome.ok "unused") "   ").du_ids = [] ∧
       (run_click statusEnvNone nameEnvTimeout (LlmOutcome.ok "unused") "   ").statuses = [] ∧
       (run_click statusEnvNone nameEnvTimeout (LlmOutcome.ok "unused") "   ").collected = []) :=
  ⟨by decide, empty_input_no_network statusEnvNone nameEnvTimeout
    (LlmOutcome.ok "unused") "   " (by decide)⟩

/-- How one run of `init_config` can fail to return a configuration:
`stop msg` is `st.error(msg)` followed by `st.stop()` (a controlled
halt of the script run); `valueError msg` is an uncaught Python
`ValueError` propagating out of `int(...)`. -/
inductive ConfigHalt where
  | stop (msg : String) : ConfigHalt
  | valueError (msg : String) : ConfigHalt

/-- The configuration record returned by `init_config`
(src/app.py lines 26-30). -/
structure Config where
  OPENAI_API_KEY : String
  BASE_URL : String
  DEFAULT_POINTS : Int

/-- The message shown by `get_env_variable` (src/app.py line 13). -/
def missingMsg (var_name : String) : String :=
  "Missing " ++ var_name ++ " environment variable. Please set it in Streamlit Cloud."

/-- `get_env_variable(var_name)` (src/app.py lines 9-15). The process
environment is a partial map from names to values; `if not value`
catches both an unset variable (`None`) and an empty string. -/
def get_env_variable (env : String → Option String) (var_name : String) :
    Except ConfigHalt String :=
  match env var_name with
  | none => Except.error (ConfigHalt.stop (missingMsg var_name))
  | some v =>
      if v = "" then Except.error (ConfigHalt.stop (missingMsg var_name))
      else Except.ok v

/-- Python `int(s)` on a decimal string literal: optional surrounding
whitespace, optional sign, one or more digits; anything else raises
`ValueError`. (Underscore digit separators and non-decimal bases,
which Python also accepts, do not occur in this program's inputs and
are not modelled.) -/
def parseNatDigits (cs : List Char) : Option Nat :=
  if cs = [] then none
  else if cs.all Char.isDigit then
    some (cs.foldl (fun acc c => acc * 10 + (c.toNat - 48)) 0)
  else none

/-- The `ValueError` message raised by Python `int()`. -/
def invalidIntMsg (s : String) : String :=
  "invalid literal for int() with base 10: " ++ s

/-- Python `int(s)` for a string argument; see `parseNatDigits`. -/
def py_int (s : String) : Except String Int :=
  match (py_strip s).data with
  | '-' :: rest =>
      match parseNatDigits rest with
      | some n => Except.ok (-(n : Int))
      | none => Except.error (invalidIntMsg s)
  | '+' :: rest =>
      match parseNatDigits rest with
      | some n => Except.ok (n : Int)
      | none => Except.error (invalidIntMsg s)
  | cs =>
      match parseNatDigits cs with
      | some n => Except.ok (n : Int)
      | none => Except.error (invalidIntMsg s)

/-- `init_config()` (src/app.py lines 18-30), minus the
`st.set_page_config` UI side effect: the dict literal evaluates
`get_env_variable('OPENAI_API_KEY')`, then
`get_env_variable('BASE_URL')`, then
`int(os.getenv('DEFAULT_POINTS', '24'))` in that order; the first
`st.stop()` halts the run, and a `ValueError` from `int` is not
caught anywhere. -/
def init_config (env : String → Option String) : Except ConfigHalt Config :=
  match get_env_variable env "OPENAI_API_KEY" with
  | Except.error e => Except.error e
  | Except.ok key =>
      match get_env_variable env "BASE_URL" with
      | Except.error e => Except.error e
      | Except.ok base =>
          match py_int ((env "DEFAULT_POINTS").getD "24") with
          | Except.error m => Except.error (ConfigHalt.valueError m)
          | Except.ok n =>
              Except.ok { OPENAI_API_KEY := key, BASE_URL := base, DEFAULT_POINTS := n }

/-- C8: whenever a required environment variable (OPENAI_API_KEY or
BASE_URL) is unset or empty, `init_config` halts with the message
naming a missing required variable — the first one in evaluation
order — and never returns any configuration record. -/
theorem init_config_missing_required (env : String → Option String)
    (v : String) (hv : v = "OPENAI_API_KEY" ∨ v = "BASE_URL")
    (hmiss : env v = none ∨ env v = some "") :
    (∃ w, (w = "OPENAI_API_KEY" ∨ w = "BASE_URL") ∧
      (env w = none ∨ env w = some "") ∧
      init_config env = Except.error (ConfigHalt.stop (missingMsg w))) ∧
    (∀ cfg, init_config env ≠ Except.ok cfg) := by
  have hfail : ∀ u, (env u = none ∨ env u = some "") →
      get_env_variable env u = Except.error (ConfigHalt.stop (missingMsg u)) := by
    intro u hu
    rcases hu with hu | hu
    · rw [get_env_variable, hu]
    · rw [get_env_variable, hu]
      rfl
  have hmain : ∃ w, (w = "OPENAI_API_KEY" ∨ w = "BASE_URL") ∧
      (env w = none ∨ env w = some "") ∧
      init_config env = Except.error (ConfigHalt.stop (missingMsg w)) := by
    by_cases hkey : env "OPENAI_API_KEY" = none ∨ env "OPENAI_API_KEY" = some ""
    · refine ⟨"OPENAI_API_KEY", Or.inl rfl, hkey, ?_⟩
      rw [init_config, hfail _ hkey]
    · have hbase : env "BASE_URL" = none ∨ env "BASE_URL" = some "" := by
        rcases hv with hv | hv
        · exact absurd (hv ▸ hmiss) hkey
        · exact hv ▸ hmiss
      refine ⟨"BASE_URL", Or.inr rfl, hbase, ?_⟩
      push_neg at hkey
      obtain ⟨hnone, hempty⟩ := hkey
      cases hke : env "OPENAI_API_KEY" with
      | none => exact absurd hke hnone
      | some s =>
          have hs : s ≠ "" := by
            intro hcon
            exact hempty (hcon ▸ hke)
          have hkeyok : get_env_variable env "OPENAI_API_KEY" = Except.ok s := by
            rw [get_env_variable, hke]
            simp [hs]
          rw [init_config, hkeyok, hfail _ hbase]
  refine ⟨hmain, ?_⟩
  intro cfg hok
  rcases hmain with ⟨w, _, _, herr⟩
  rw [herr] at hok
  cases hok

/-- Concrete environment for the C8 witness: the API key is set and
non-empty, BASE_URL is unset. -/
def envMissingBase : String → Option String :=
  fun v => if v = "OPENAI_API_KEY" then some "sk-test" else none

/-- C8 witness: with BASE_URL unset, `init_config` halts with the
message naming BASE_URL and returns no configuration. -/
theorem init_config_missing_required_witness :
    (envMissingBase "BASE_URL" = none ∨ envMissingBase "BASE_URL" = some "") ∧
      ((∃ w, (w = "OPENAI_API_KEY" ∨ w = "BASE_URL") ∧
        (envMissingBase w = none ∨ envMissingBase w = some "") ∧
        init_config envMissingBase = Except.error (ConfigHalt.stop (missingMsg w))) ∧
      (∀ cfg, init_config envMissingBase ≠ Except.ok cfg)) :=
  ⟨Or.inl rfl, init_config_missing_required envMissingBase "BASE_URL"
    (Or.inr rfl) (Or.inl rfl)⟩

/-- Environment with both required variables set and DEFAULT_POINTS
unset. -/
def envPointsUnset : String → Option String :=
  fun v => if v = "OPENAI_API_KEY" then some "sk-test"
    else if v = "BASE_URL" then some "https://api.example.com"
    else none

/-- Environment with DEFAULT_POINTS set to the numeric string "48". -/
def envPointsNumeric : String → Option String :=
  fun v => if v = "OPENAI_API_KEY" then some "sk-test"
    else if v = "BASE_URL" then some "https://api.example.com"
    else if v = "DEFAULT_POINTS" then some "48"
    else none

/-- Environment with DEFAULT_POINTS set to the non-numeric string
"abc". -/
def envPointsBad : String → Option String :=
  fun v => if v = "OPENAI_API_KEY" then some "sk-test"
    else if v = "BASE_URL" then some "https://api.example.com"
    else if v = "DEFAULT_POINTS" then some "abc"
    else none

/-- C9: DEFAULT_POINTS is optional with default 24 and is parsed as an
integer when set; but when it is set to a non-numeric string,
`int(os.getenv('DEFAULT_POINTS', '24'))` raises a `ValueError` that no
handler catches — there is no ConfigError (or any controlled halt) in
the code, contradicting the claim that configuration loading fails
with a ConfigError rather than an uncontrolled exception. -/
theorem init_config_default_points_behavior :
    init_config envPointsUnset = Except.ok
      { OPENAI_API_KEY := "sk-test", BASE_URL := "https://api.example.com",
        DEFAULT_POINTS := 24 } ∧
    init_config envPointsNumeric = Except.ok
      { OPENAI_API_KEY := "sk-test", BASE_URL := "https://api.example.com",
        DEFAULT_POINTS := 48 } ∧
    init_config envPointsBad =
      Except.error (ConfigHalt.valueError (invalidIntMsg "abc")) :=
  ⟨rfl, rfl, rfl⟩

/-- `get_time_range()` (src/app.py lines 33-37), with the wall clock
abstracted as an integer count `now_ms` of milliseconds since the
epoch: `end_time = int(now.timestamp() * 1000)` is `now_ms` and
`start_time = int((now - timedelta(days=1)).timestamp() * 1000)` is
`now_ms - 86400000` (a fixed UTC offset is assumed, so subtracting
one day of wall-clock time subtracts exactly 86400000 ms; the
sub-millisecond float residue of `timestamp()` is below the `int`
truncation). The function returns `str(start_time), str(end_time)`:
a pair of decimal strings, not integers. -/
def get_time_range (now_ms : Int) : String × String :=
  (toString (now_ms - 86400000), toString now_ms)

/-- C6 counterexample: at the concrete clock reading 1700000000000 ms,
`get_time_range` returns the pair of decimal strings
`("1699913600000", "1700000000000")` — values of type `String`
produced by `str(...)`, not the pair of integer millisecond-epoch
timestamps the claim asserts. -/
theorem get_time_range_returns_strings :
    get_time_range 1700000000000 = ("1699913600000", "1700000000000") := rfl

/-- C6 amended: `get_time_range` returns the pair of decimal string
representations `(str(now − 86400000), str(now))` of the window
bounds, computed from the wall-clock reading of the call; the
represented integers satisfy `start < end` and `end − start =
86400000`. -/
theorem get_time_range_spec (now_ms : Int) :
    get_time_range now_ms = (toString (now_ms - 86400000), toString now_ms) ∧
    now_ms - 86400000 < now_ms ∧
    now_ms - (now_ms - 86400000) = 86400000 :=
  ⟨rfl, by omega, by omega⟩
